import Mathlib

/-!
LiveBetter — Ranking & Scoring Engine: formal model and verification

A shallow embedding of the LiveBetter metro-ranking pipeline.  Monetary
amounts, rates, indices and scores are modelled as rationals (`ℚ`);
household counts, populations and limits as naturals.

The backend ranking engine itself is not among the repository files
available here (only the frontend, the README's scoring methodology and
the database schema are), so the pipeline components are modelled from
the specification, as marked on each definition.  The frontend form
validation and the compare-selection handlers are translated directly
from the frontend source.
-/

namespace LiveBetter

/-- Modelled from the spec: the closed set of three transport modes
(§4.3 of the spec; `transport_mode ∈ {public_transit, car, bike_walk}`). -/
inductive TransportMode where
  | public_transit
  | car
  | bike_walk
deriving DecidableEq, Repr

/-- Modelled from the spec: the caller's `RankRequest` (spec §3 data model;
the six preference weights mirror `frontend/src/types` `RankRequest`). -/
structure RankRequest where
  salary : ℚ
  family_size : ℕ
  rent_cap_pct : ℚ
  population_min : ℕ
  limit : ℕ
  transport_mode : TransportMode
  affordability_weight : ℚ
  schools_weight : ℚ
  safety_weight : ℚ
  weather_weight : ℚ
  healthcare_weight : ℚ
  walkability_weight : ℚ
deriving DecidableEq, Repr

/-- Modelled from the spec: one catalog row joining Metro, MetroCosts and
MetroQualityOfLife (spec §3; columns as in the SQL schema).  Every
quality-of-life field may be absent. -/
structure MetroRecord where
  metro_id : ℕ
  population : ℕ
  median_rent : ℚ
  rpp_index : ℚ
  effective_tax_rate : ℚ
  utilities_baseline : ℚ
  school_score : Option ℚ
  crime_rate : Option ℚ
  weather_score : Option ℚ
  healthcare_score : Option ℚ
  walkability_score : Option ℚ
  commute_time_minutes : Option ℚ
deriving DecidableEq, Repr

/-- Modelled from the spec: the four always-present monthly cost
categories (spec §3 `EssentialsBreakdown`). -/
structure EssentialsBreakdown where
  rent : ℚ
  utilities : ℚ
  groceries : ℚ
  transport : ℚ
deriving DecidableEq, Repr

/-- Modelled from the spec: the per-metro output record (spec §3
`RankResult`). -/
structure RankResult where
  metro_id : ℕ
  score : ℚ
  affordability_score : ℚ
  discretionary_income : ℚ
  essentials : EssentialsBreakdown
  net_monthly_adjusted : ℚ
  rpp_index : ℚ
deriving DecidableEq, Repr

/-- Clamp `x` into the closed interval `[lo, hi]`. -/
def clamp (x lo hi : ℚ) : ℚ := max lo (min x hi)

/-- Modelled from the spec: net monthly income after the effective tax
rate (README methodology: `Net Monthly Income = (Salary × (1 - Tax Rate)) / 12`). -/
def netMonthlyIncome (salary taxRate : ℚ) : ℚ := salary * (1 - taxRate) / 12

/-- Modelled from the spec: the per-metro error taxonomy relevant to the
pipeline stages embedded here (spec §7). -/
inductive MetroError where
  | invalidMetroData
deriving DecidableEq, Repr

/-- Modelled from the spec: the RegionalAdjuster (spec §4.2):
`adjusted_income = net_monthly_income / rpp_index`, failing with
`InvalidMetroDataError` when `rpp_index` is zero or negative. -/
def regionalAdjust (netMonthly rpp : ℚ) : Except MetroError ℚ :=
  if rpp ≤ 0 then .error .invalidMetroData else .ok (netMonthly / rpp)

/-- Modelled from the spec: groceries cost
`(350 + 150 × (family_size − 1)) × rpp_index` (spec §4.3). -/
def groceriesCost (familySize : ℕ) (rpp : ℚ) : ℚ :=
  (350 + 150 * ((familySize : ℚ) - 1)) * rpp

/-- Modelled from the spec: the TransportCostModel, dispatching on the
transport mode (spec §4.3).  Missing walkability/commute data is neutral
(no adjustment). -/
def transportCost (mode : TransportMode) (familySize : ℕ) (rpp : ℚ)
    (walkability commuteTime : Option ℚ) : ℚ :=
  match mode with
  | .public_transit =>
    let base := (100 + 40 * ((familySize : ℚ) - 1)) * rpp
    match walkability with
    | some w => if w > 65 then base * 0.85 else if w < 45 then base * 1.30 else base
    | none => base
  | .car =>
    let base := (450 + 100 * ((familySize : ℚ) - 1)) * rpp
    match commuteTime with
    | some c => if c > 35 then base * 1.10 else base
    | none => base
  | .bike_walk => 50 * rpp

/-- Modelled from the spec: the bike/walk feasibility filter (spec §4.3):
under `bike_walk` a metro with a known `walkability_score < 50` is
excluded entirely; an absent datum never excludes. -/
def bikeWalkExcluded (mode : TransportMode) (walkability : Option ℚ) : Bool :=
  mode = .bike_walk &&
    match walkability with
    | some w => decide (w < 50)
    | none => false

/-- Modelled from the spec: the EssentialsCalculator (spec §4.3): rent is
capped at `rent_cap_pct` of adjusted income, utilities are the flat metro
baseline, groceries and transport per their formulas. -/
def essentialsFor (req : RankRequest) (m : MetroRecord) (adjustedIncome : ℚ) :
    EssentialsBreakdown :=
  { rent := min m.median_rent (req.rent_cap_pct * adjustedIncome)
    utilities := m.utilities_baseline
    groceries := groceriesCost req.family_size m.rpp_index
    transport := transportCost req.transport_mode req.family_size m.rpp_index
      m.walkability_score m.commute_time_minutes }

/-- Modelled from the spec: the AffordabilityScorer (spec §4.4):
`affordability_score = clamp((DI + 500) / 6500, 0, 1)`. -/
def affordabilityScore (discretionaryIncome : ℚ) : ℚ :=
  clamp ((discretionaryIncome + 500) / 6500) 0 1

/-- Modelled from the spec: normalization of an optional raw metric, with
the neutral default `0.5` substituted where the datum is absent
(spec §4.5). -/
def normalizeOpt (f : ℚ → ℚ) : Option ℚ → ℚ
  | some v => f v
  | none => 1 / 2

/-- Modelled from the spec: the fixed reference cap used to invert
`crime_rate` into a `[0,1]` safety score.  The spec (§9) leaves the exact
value open and asks for a fixed, documented configuration constant. -/
def crimeRateCap : ℚ := 1000

/-- Modelled from the spec: the QualityOfLifeNormalizer (spec §4.5),
mapping each present raw metric to `[0,1]` and each absent one to `0.5`. -/
def qolSchools (m : MetroRecord) : ℚ := normalizeOpt (fun v => v / 100) m.school_score

/-- Modelled from the spec: safety component,
`1 − min(crime_rate, cap)/cap` (spec §4.5). -/
def qolSafety (m : MetroRecord) : ℚ :=
  normalizeOpt (fun c => 1 - min c crimeRateCap / crimeRateCap) m.crime_rate

/-- Modelled from the spec: weather component `weather_score/100`. -/
def qolWeather (m : MetroRecord) : ℚ := normalizeOpt (fun v => v / 100) m.weather_score

/-- Modelled from the spec: healthcare component `healthcare_score/100`. -/
def qolHealthcare (m : MetroRecord) : ℚ := normalizeOpt (fun v => v / 100) m.healthcare_score

/-- Modelled from the spec: walkability component `walkability_score/100`. -/
def qolWalkability (m : MetroRecord) : ℚ := normalizeOpt (fun v => v / 100) m.walkability_score

/-- Modelled from the spec: the sum of the six caller-supplied weights
(spec §4.6). -/
def totalWeight (req : RankRequest) : ℚ :=
  req.affordability_weight + req.schools_weight + req.safety_weight +
    req.weather_weight + req.healthcare_weight + req.walkability_weight

/-- Modelled from the spec: the CompositeScorer's weighted blend
(spec §4.6): `Σ(component × weight) / Σ(weight)`, failing safe to pure
affordability when every weight is 0. -/
def compositeRaw (req : RankRequest) (afford : ℚ) (m : MetroRecord) : ℚ :=
  if totalWeight req = 0 then afford
  else
    (afford * req.affordability_weight + qolSchools m * req.schools_weight +
        qolSafety m * req.safety_weight + qolWeather m * req.weather_weight +
        qolHealthcare m * req.healthcare_weight + qolWalkability m * req.walkability_weight) /
      totalWeight req

/-- Modelled from the spec: the bike/walk walkability boost (spec §4.3 and
§4.6): the composite score is multiplied by 1.15 when the mode is
`bike_walk` and the metro's walkability is known and above 75. -/
def bikeWalkBoost (mode : TransportMode) (walkability : Option ℚ) : ℚ :=
  if mode = .bike_walk then
    match walkability with
    | some w => if w > 75 then 1.15 else 1
    | none => 1
  else 1

/-- Modelled from the spec: the final composite score (spec §4.6): the
weighted blend, multiplied by the bike/walk boost, re-clamped to `[0,1]`. -/
def compositeScore (req : RankRequest) (afford : ℚ) (m : MetroRecord) : ℚ :=
  clamp (compositeRaw req afford m *
    bikeWalkBoost req.transport_mode m.walkability_score) 0 1

/-- Modelled from the spec: the per-metro pipeline (spec §4.8 step 3,
running §4.1–4.6): `none` when the metro is excluded (bike/walk filter or
invalid metro data), otherwise the scored `RankResult`. -/
def scoreMetro (req : RankRequest) (m : MetroRecord) : Option RankResult :=
  if bikeWalkExcluded req.transport_mode m.walkability_score then none
  else
    match regionalAdjust (netMonthlyIncome req.salary m.effective_tax_rate) m.rpp_index with
    | .error _ => none
    | .ok adjusted =>
      let es := essentialsFor req m adjusted
      let di := adjusted - (es.rent + es.utilities + es.groceries + es.transport)
      let afford := affordabilityScore di
      some { metro_id := m.metro_id
             score := compositeScore req afford m
             affordability_score := afford
             discretionary_income := di
             essentials := es
             net_monthly_adjusted := adjusted
             rpp_index := m.rpp_index }

/-- Modelled from the spec: the sort order of spec §4.8 step 4 as a total
boolean relation — composite score descending, ties broken by ascending
`metro_id`. -/
def rankLE (a b : RankResult) : Bool :=
  decide (b.score < a.score ∨ (a.score = b.score ∧ a.metro_id ≤ b.metro_id))

/-- Modelled from the spec: the RankingOrchestrator's compute path
(spec §4.8): filter the catalog by the population floor, score each
candidate (dropping excluded/failed metros), sort by score descending
with the metro-id tie-break, truncate to `limit`.  The cache layer is
pass-through for the value computed here and is not modelled. -/
def rank (req : RankRequest) (catalog : List MetroRecord) : List RankResult :=
  (((catalog.filter fun m => req.population_min ≤ m.population).filterMap
      (scoreMetro req)).mergeSort rankLE).take req.limit

/-! Shared lemmas about the pipeline -/

theorem clamp_nonneg (x : ℚ) : 0 ≤ clamp x 0 1 := le_max_left _ _

theorem clamp_le_one (x : ℚ) : clamp x 0 1 ≤ 1 :=
  max_le (by norm_num) (min_le_right _ _)

theorem clamp_eq_self {x : ℚ} (h0 : 0 ≤ x) (h1 : x ≤ 1) : clamp x 0 1 = x := by
  unfold clamp
  rw [min_eq_left h1, max_eq_right h0]

theorem regionalAdjust_ok {net rpp a : ℚ} (h : regionalAdjust net rpp = .ok a) :
    0 < rpp ∧ a = net / rpp := by
  unfold regionalAdjust at h
  split at h
  · exact absurd h (by simp)
  · next hc => exact ⟨lt_of_not_le hc, by injection h with h; exact h.symm⟩

/-- Inversion of the per-metro pipeline: everything a successful
`scoreMetro` guarantees about the produced `RankResult`. -/
theorem scoreMetro_some {req : RankRequest} {m : MetroRecord} {r : RankResult}
    (h : scoreMetro req m = some r) :
    bikeWalkExcluded req.transport_mode m.walkability_score = false ∧
    0 < m.rpp_index ∧
    r.metro_id = m.metro_id ∧
    r.rpp_index = m.rpp_index ∧
    r.net_monthly_adjusted =
      netMonthlyIncome req.salary m.effective_tax_rate / m.rpp_index ∧
    r.essentials = essentialsFor req m r.net_monthly_adjusted ∧
    r.discretionary_income = r.net_monthly_adjusted -
      (r.essentials.rent + r.essentials.utilities + r.essentials.groceries +
        r.essentials.transport) ∧
    r.affordability_score = affordabilityScore r.discretionary_income ∧
    r.score = compositeScore req r.affordability_score m := by
  unfold scoreMetro at h
  by_cases hex : bikeWalkExcluded req.transport_mode m.walkability_score
  · rw [if_pos hex] at h
    exact absurd h (by simp)
  · rw [if_neg hex] at h
    cases hadj : regionalAdjust (netMonthlyIncome req.salary m.effective_tax_rate)
        m.rpp_index with
    | error e => rw [hadj] at h; exact absurd h (by simp)
    | ok adjusted =>
      rw [hadj] at h
      obtain ⟨hrpp, hadj'⟩ := regionalAdjust_ok hadj
      simp only [Option.some.injEq] at h
      subst h
      exact ⟨Bool.eq_false_iff.mpr hex, hrpp, rfl, rfl, by simpa using hadj', rfl, rfl,
        rfl, rfl⟩

/-- Every result produced by `rank` comes from scoring one catalog metro
that passes the population floor. -/
theorem mem_rank_exists {req : RankRequest} {ms : List MetroRecord} {r : RankResult}
    (h : r ∈ rank req ms) :
    ∃ m, m ∈ ms ∧ req.population_min ≤ m.population ∧ scoreMetro req m = some r := by
  unfold rank at h
  have h1 := List.mem_of_mem_take h
  rw [List.mem_mergeSort, List.mem_filterMap] at h1
  obtain ⟨m, hm, hsm⟩ := h1
  rw [List.mem_filter] at hm
  exact ⟨m, hm.1, by simpa using hm.2, hsm⟩

/-! Concrete sample inputs used to instantiate the theorems -/

/-- A concrete request: bike/walk mode, affordability weight 10, all
quality-of-life weights 0. -/
def sampleReq : RankRequest :=
  { salary := 12000, family_size := 1, rent_cap_pct := 0.3, population_min := 0,
    limit := 50, transport_mode := .bike_walk, affordability_weight := 10,
    schools_weight := 0, safety_weight := 0, weather_weight := 0,
    healthcare_weight := 0, walkability_weight := 0 }

/-- A concrete catalog row with a known, high walkability score. -/
def sampleMetro : MetroRecord :=
  { metro_id := 1, population := 100000, median_rent := 0, rpp_index := 1,
    effective_tax_rate := 0, utilities_baseline := 0, school_score := none,
    crime_rate := none, weather_score := none, healthcare_score := none,
    walkability_score := some 80, commute_time_minutes := none }

/-- The result the pipeline produces for `sampleReq` on `sampleMetro`. -/
def sampleResult : RankResult :=
  { metro_id := 1, score := 253 / 1300, affordability_score := 11 / 65,
    discretionary_income := 600, essentials := ⟨0, 0, 350, 50⟩,
    net_monthly_adjusted := 1000, rpp_index := 1 }

theorem scoreMetro_sample : scoreMetro sampleReq sampleMetro = some sampleResult := by
  simp only [scoreMetro, bikeWalkExcluded, regionalAdjust, netMonthlyIncome,
    essentialsFor, groceriesCost, transportCost, affordabilityScore, clamp,
    compositeScore, compositeRaw, totalWeight, bikeWalkBoost, qolSchools,
    qolSafety, qolWeather, qolHealthcare, qolWalkability, normalizeOpt,
    sampleReq, sampleMetro, sampleResult]
  norm_num

theorem rank_sample : rank sampleReq [sampleMetro] = [sampleResult] := by
  unfold rank
  rw [show List.filter (fun m => decide (sampleReq.population_min ≤ m.population))
        [sampleMetro] = [sampleMetro] by rfl]
  rw [List.filterMap_cons, scoreMetro_sample]
  simp [List.mergeSort_singleton, sampleReq]

theorem sampleResult_mem : sampleResult ∈ rank sampleReq [sampleMetro] := by
  rw [rank_sample]; exact List.mem_singleton.mpr rfl

/-! The claims about the ranking engine -/

/-- C1: for every metro scored by the pipeline, `discretionary_income`
equals `adjusted_income` minus the sum of the four essentials, and
`affordability_score = clamp((DI + 500) / 6500, 0, 1)`; each result is a
fixed per-metro function of the request and that metro's attributes
(`scoreMetro`), with no dependence on the rest of the candidate set. -/
theorem affordability_contract (req : RankRequest) (ms : List MetroRecord)
    (r : RankResult) (h : r ∈ rank req ms) :
    (∃ m, m ∈ ms ∧ scoreMetro req m = some r) ∧
    r.discretionary_income = r.net_monthly_adjusted -
      (r.essentials.rent + r.essentials.utilities + r.essentials.groceries +
        r.essentials.transport) ∧
    r.affordability_score = clamp ((r.discretionary_income + 500) / 6500) 0 1 := by
  obtain ⟨m, hm, _, hsm⟩ := mem_rank_exists h
  have hf := scoreMetro_some hsm
  exact ⟨⟨m, hm, hsm⟩, hf.2.2.2.2.2.2.1, hf.2.2.2.2.2.2.2.1⟩

/-- Witness for C1 at a concrete request and one-metro catalog. -/
theorem affordability_contract_witness :
    (∃ m, m ∈ [sampleMetro] ∧ scoreMetro sampleReq m = some sampleResult) ∧
    sampleResult.discretionary_income = sampleResult.net_monthly_adjusted -
      (sampleResult.essentials.rent + sampleResult.essentials.utilities +
        sampleResult.essentials.groceries + sampleResult.essentials.transport) ∧
    sampleResult.affordability_score =
      clamp ((sampleResult.discretionary_income + 500) / 6500) 0 1 :=
  affordability_contract sampleReq [sampleMetro] sampleResult sampleResult_mem

/-- C2: every result returned by `rank` has its composite score and its
affordability score in `[0, 1]`. -/
theorem scores_in_unit_interval (req : RankRequest) (ms : List MetroRecord)
    (r : RankResult) (h : r ∈ rank req ms) :
    0 ≤ r.score ∧ r.score ≤ 1 ∧
    0 ≤ r.affordability_score ∧ r.affordability_score ≤ 1 := by
  obtain ⟨m, _, _, hsm⟩ := mem_rank_exists h
  have hf := scoreMetro_some hsm
  have hsc := hf.2.2.2.2.2.2.2.2
  have haf := hf.2.2.2.2.2.2.2.1
  rw [hsc, haf]
  unfold compositeScore affordabilityScore
  exact ⟨clamp_nonneg _, clamp_le_one _, clamp_nonneg _, clamp_le_one _⟩

/-- Witness for C2 at a concrete request and one-metro catalog. -/
theorem scores_in_unit_interval_witness :
    0 ≤ sampleResult.score ∧ sampleResult.score ≤ 1 ∧
    0 ≤ sampleResult.affordability_score ∧ sampleResult.affordability_score ≤ 1 :=
  scores_in_unit_interval sampleReq [sampleMetro] sampleResult sampleResult_mem

/-- C3 (counterexample): with all QOL weights 0 and affordability weight
10, under `bike_walk` a metro with walkability 80 receives the ×1.15
composite boost, so its returned `score` differs from its
`affordability_score`. -/
theorem pure_affordability_counterexample :
    sampleReq.schools_weight = 0 ∧ sampleReq.safety_weight = 0 ∧
    sampleReq.weather_weight = 0 ∧ sampleReq.healthcare_weight = 0 ∧
    sampleReq.walkability_weight = 0 ∧ 0 < sampleReq.affordability_weight ∧
    sampleResult ∈ rank sampleReq [sampleMetro] ∧
    sampleResult.score ≠ sampleResult.affordability_score :=
  ⟨rfl, rfl, rfl, rfl, rfl, by norm_num [sampleReq], sampleResult_mem,
    by norm_num [sampleResult]⟩

/-- C3 (amended): with all five QOL weights 0 and affordability weight
positive, every returned metro has `score = affordability_score`, except
when the transport mode is `bike_walk` and the metro's walkability score
is present and above 75, in which case
`score = clamp(1.15 × affordability_score, 0, 1)`. -/
theorem pure_affordability_mode (req : RankRequest) (ms : List MetroRecord)
    (hs : req.schools_weight = 0) (hsa : req.safety_weight = 0)
    (hw : req.weather_weight = 0) (hh : req.healthcare_weight = 0)
    (hwk : req.walkability_weight = 0) (ha : 0 < req.affordability_weight)
    (r : RankResult) (hr : r ∈ rank req ms) :
    ∃ m, m ∈ ms ∧ scoreMetro req m = some r ∧
      ((req.transport_mode = .bike_walk ∧
          ∃ w, m.walkability_score = some w ∧ 75 < w) →
        r.score = clamp (1.15 * r.affordability_score) 0 1) ∧
      (¬(req.transport_mode = .bike_walk ∧
          ∃ w, m.walkability_score = some w ∧ 75 < w) →
        r.score = r.affordability_score) := by
  obtain ⟨m, hm, _, hsm⟩ := mem_rank_exists hr
  have hf := scoreMetro_some hsm
  have hsc := hf.2.2.2.2.2.2.2.2
  have haf := hf.2.2.2.2.2.2.2.1
  have htw : totalWeight req = req.affordability_weight := by
    unfold totalWeight
    rw [hs, hsa, hw, hh, hwk]
    ring
  have hraw : compositeRaw req r.affordability_score m = r.affordability_score := by
    unfold compositeRaw
    rw [htw, if_neg ha.ne', hs, hsa, hw, hh, hwk]
    simp only [mul_zero, add_zero]
    exact mul_div_cancel_right₀ _ ha.ne'
  have haff0 : 0 ≤ r.affordability_score := by
    rw [haf]; unfold affordabilityScore; exact clamp_nonneg _
  have haff1 : r.affordability_score ≤ 1 := by
    rw [haf]; unfold affordabilityScore; exact clamp_le_one _
  refine ⟨m, hm, hsm, ?_, ?_⟩
  · rintro ⟨hmode, w, hwalk, hgt⟩
    have hboost : bikeWalkBoost req.transport_mode m.walkability_score = 1.15 := by
      simp [bikeWalkBoost, hmode, hwalk, hgt]
    rw [hsc]
    unfold compositeScore
    rw [hraw, hboost, mul_comm]
  · intro hnot
    have hboost : bikeWalkBoost req.transport_mode m.walkability_score = 1 := by
      unfold bikeWalkBoost
      by_cases hmode : req.transport_mode = .bike_walk
      · rw [if_pos hmode]
        cases hwalk : m.walkability_score with
        | none => rfl
        | some w =>
          have h75 : ¬ (75 : ℚ) < w := fun hgt => hnot ⟨hmode, w, hwalk, hgt⟩
          simp [h75]
      · rw [if_neg hmode]
    rw [hsc]
    unfold compositeScore
    rw [hraw, hboost, mul_one]
    exact clamp_eq_self haff0 haff1

/-- Witness for the amended C3: the boosted case, fully instantiated. -/
theorem pure_affordability_mode_witness :
    sampleResult.score = clamp (1.15 * sampleResult.affordability_score) 0 1 := by
  obtain ⟨m, hm, hsm, h1, h2⟩ :=
    pure_affordability_mode sampleReq [sampleMetro] rfl rfl rfl rfl rfl
      (by norm_num [sampleReq]) sampleResult sampleResult_mem
  rw [List.mem_singleton] at hm
  subst hm
  exact h1 ⟨rfl, 80, rfl, by norm_num⟩

/-! The worked example of the README and methodology page -/

/-- The request of the README/methodology worked example: salary 90,000,
family of 2, rent cap 30%, public transit. -/
def exampleReq : RankRequest :=
  { salary := 90000, family_size := 2, rent_cap_pct := 0.3, population_min := 0,
    limit := 50, transport_mode := .public_transit, affordability_weight := 10,
    schools_weight := 0, safety_weight := 0, weather_weight := 0,
    healthcare_weight := 0, walkability_weight := 0 }

/-- The metro of the worked example: RPP 0.95, effective tax 27%, median
rent 1450, utilities 165, walkability 48. -/
def exampleMetro : MetroRecord :=
  { metro_id := 42, population := 1000000, median_rent := 1450, rpp_index := 0.95,
    effective_tax_rate := 0.27, utilities_baseline := 165, school_score := none,
    crime_rate := none, weather_score := none, healthcare_score := none,
    walkability_score := some 48, commute_time_minutes := none }

/-- C4: the worked example evaluates exactly as the spec states:
net monthly 5475, adjusted income 109500/19 ≈ 5763.16, rent 1450 (the
capped minimum), groceries 475, transport 133 (no walkability
adjustment), essentials 2223, discretionary income 67263/19 ≈ 3540.16,
affordability score 76763/123500 ≈ 0.6216. -/
theorem example_calculation :
    netMonthlyIncome exampleReq.salary exampleMetro.effective_tax_rate = 5475 ∧
    regionalAdjust 5475 exampleMetro.rpp_index = .ok (109500 / 19) ∧
    min exampleMetro.median_rent (exampleReq.rent_cap_pct * (109500 / 19)) = 1450 ∧
    essentialsFor exampleReq exampleMetro (109500 / 19) = ⟨1450, 165, 475, 133⟩ ∧
    1450 + 165 + 475 + 133 = (2223 : ℚ) ∧
    scoreMetro exampleReq exampleMetro = some
      { metro_id := 42, score := 76763 / 123500,
        affordability_score := 76763 / 123500,
        discretionary_income := 67263 / 19, essentials := ⟨1450, 165, 475, 133⟩,
        net_monthly_adjusted := 109500 / 19, rpp_index := 0.95 } ∧
    |109500 / 19 - (5763.16 : ℚ)| < 0.01 ∧
    |67263 / 19 - (3540.16 : ℚ)| < 0.01 ∧
    |76763 / 123500 - (0.6216 : ℚ)| < 0.0001 := by
  refine ⟨?_, ?_, ?_, ?_, by norm_num, ?_, by rw [abs_sub_lt_iff]; norm_num,
    by rw [abs_sub_lt_iff]; norm_num, by rw [abs_sub_lt_iff]; norm_num⟩
  · norm_num [netMonthlyIncome, exampleReq, exampleMetro]
  · norm_num [regionalAdjust, exampleMetro]
  · norm_num [exampleMetro, exampleReq]
  · simp only [essentialsFor, groceriesCost, transportCost, exampleReq, exampleMetro]
    norm_num
  · simp only [scoreMetro, bikeWalkExcluded, regionalAdjust, netMonthlyIncome,
      essentialsFor, groceriesCost, transportCost, affordabilityScore, clamp,
      compositeScore, compositeRaw, totalWeight, bikeWalkBoost, qolSchools,
      qolSafety, qolWeather, qolHealthcare, qolWalkability, normalizeOpt,
      exampleReq, exampleMetro]
    norm_num
    intro h
    exact absurd h (by decide)

/-- C5: the transport line item is computed by mode dispatch — public
transit uses `(100 + 40×(family_size−1))×rpp` with ×0.85 above
walkability 65, ×1.30 below 45, and no adjustment when walkability is
absent or in `[45, 65]`; car uses `(450 + 100×(family_size−1))×rpp` with
×1.10 when the commute is known and over 35 minutes. -/
theorem transport_cost_dispatch (familySize : ℕ) (rpp : ℚ)
    (walkability commuteTime : Option ℚ) :
    (walkability = none →
      transportCost .public_transit familySize rpp walkability commuteTime =
        (100 + 40 * ((familySize : ℚ) - 1)) * rpp) ∧
    (∀ w, walkability = some w → 65 < w →
      transportCost .public_transit familySize rpp walkability commuteTime =
        (100 + 40 * ((familySize : ℚ) - 1)) * rpp * 0.85) ∧
    (∀ w, walkability = some w → w < 45 →
      transportCost .public_transit familySize rpp walkability commuteTime =
        (100 + 40 * ((familySize : ℚ) - 1)) * rpp * 1.30) ∧
    (∀ w, walkability = some w → 45 ≤ w → w ≤ 65 →
      transportCost .public_transit familySize rpp walkability commuteTime =
        (100 + 40 * ((familySize : ℚ) - 1)) * rpp) ∧
    (commuteTime = none →
      transportCost .car familySize rpp walkability commuteTime =
        (450 + 100 * ((familySize : ℚ) - 1)) * rpp) ∧
    (∀ c, commuteTime = some c → 35 < c →
      transportCost .car familySize rpp walkability commuteTime =
        (450 + 100 * ((familySize : ℚ) - 1)) * rpp * 1.10) ∧
    (∀ c, commuteTime = some c → c ≤ 35 →
      transportCost .car familySize rpp walkability commuteTime =
        (450 + 100 * ((familySize : ℚ) - 1)) * rpp) := by
  refine ⟨?_, ?_, ?_, ?_, ?_, ?_, ?_⟩
  · intro hw; subst hw; rfl
  · intro w hw hgt; subst hw
    simp only [transportCost]
    rw [if_pos hgt]
  · intro w hw hlt; subst hw
    simp only [transportCost]
    rw [if_neg (by linarith), if_pos hlt]
  · intro w hw h45 h65; subst hw
    simp only [transportCost]
    rw [if_neg (not_lt.mpr h65), if_neg (not_lt.mpr h45)]
  · intro hc; subst hc; rfl
  · intro c hc hgt; subst hc
    simp only [transportCost]
    rw [if_pos hgt]
  · intro c hc hle; subst hc
    simp only [transportCost]
    rw [if_neg (not_lt.mpr hle)]

/-- Witness for C5: a family of 2 at RPP 1, walkability 70 (transit
discount) and a 40-minute commute (car penalty). -/
theorem transport_cost_dispatch_witness :
    transportCost .public_transit 2 1 (some 70) (some 40) =
      (100 + 40 * (((2 : ℕ) : ℚ) - 1)) * 1 * 0.85 ∧
    transportCost .car 2 1 (some 70) (some 40) =
      (450 + 100 * (((2 : ℕ) : ℚ) - 1)) * 1 * 1.10 :=
  ⟨(transport_cost_dispatch 2 1 (some 70) (some 40)).2.1 70 rfl (by norm_num),
    (transport_cost_dispatch 2 1 (some 70) (some 40)).2.2.2.2.2.1 40 rfl
      (by norm_num)⟩

/-- C6: under `bike_walk`, a metro with a known walkability score below 50
is excluded from scoring (hence from the results), a metro with no
walkability datum is not excluded by this rule, and every returned result
comes from a metro whose walkability is absent or at least 50. -/
theorem bike_walk_exclusion (req : RankRequest)
    (h : req.transport_mode = .bike_walk) :
    (∀ m : MetroRecord, ∀ w, m.walkability_score = some w → w < 50 →
      scoreMetro req m = none) ∧
    (∀ m : MetroRecord, m.walkability_score = none → 0 < m.rpp_index →
      ∃ r, scoreMetro req m = some r) ∧
    (∀ ms : List MetroRecord, ∀ r ∈ rank req ms,
      ∃ m, m ∈ ms ∧ scoreMetro req m = some r ∧
        ∀ w, m.walkability_score = some w → 50 ≤ w) := by
  refine ⟨?_, ?_, ?_⟩
  · intro m w hw hlt
    have hex : bikeWalkExcluded req.transport_mode m.walkability_score = true := by
      simp [bikeWalkExcluded, h, hw, hlt]
    unfold scoreMetro
    rw [if_pos hex]
  · intro m hw hrpp
    have hex : bikeWalkExcluded req.transport_mode m.walkability_score = false := by
      simp [bikeWalkExcluded, hw]
    unfold scoreMetro
    rw [if_neg (by simp [hex])]
    unfold regionalAdjust
    rw [if_neg (not_le.mpr hrpp)]
    exact ⟨_, rfl⟩
  · intro ms r hr
    obtain ⟨m, hm, _, hsm⟩ := mem_rank_exists hr
    refine ⟨m, hm, hsm, ?_⟩
    intro w hw
    by_contra hlt
    push_neg at hlt
    have hex := (scoreMetro_some hsm).1
    simp [bikeWalkExcluded, h, hw, hlt] at hex

/-- A metro whose known walkability is below the bike/walk threshold. -/
def sampleMetroLowWalk : MetroRecord :=
  { sampleMetro with metro_id := 2, walkability_score := some 40 }

/-- A metro with no walkability datum at all. -/
def sampleMetroNoWalk : MetroRecord :=
  { sampleMetro with metro_id := 3, walkability_score := none }

/-- Witness for C6: the low-walkability metro is dropped, the
missing-datum metro is still scored. -/
theorem bike_walk_exclusion_witness :
    scoreMetro sampleReq sampleMetroLowWalk = none ∧
    ∃ r, scoreMetro sampleReq sampleMetroNoWalk = some r :=
  ⟨(bike_walk_exclusion sampleReq rfl).1 sampleMetroLowWalk 40 rfl (by norm_num),
    (bike_walk_exclusion sampleReq rfl).2.1 sampleMetroNoWalk rfl
      (by norm_num [sampleMetroNoWalk, sampleMetro])⟩

/-- C7: the list returned by `rank` is sorted by composite score
descending with ascending `metro_id` as the tie-break, and contains at
most `limit` entries. -/
theorem rank_sorted_and_truncated (req : RankRequest) (ms : List MetroRecord) :
    List.Sorted (fun a b : RankResult =>
      b.score < a.score ∨ (a.score = b.score ∧ a.metro_id ≤ b.metro_id))
      (rank req ms) ∧
    (rank req ms).length ≤ req.limit := by
  constructor
  · have htrans : ∀ a b c : RankResult,
        rankLE a b = true → rankLE b c = true → rankLE a c = true := by
      intro a b c hab hbc
      simp only [rankLE, decide_eq_true_eq] at hab hbc ⊢
      rcases hab with h1 | ⟨h1, h1'⟩ <;> rcases hbc with h2 | ⟨h2, h2'⟩
      · exact Or.inl (h2.trans h1)
      · exact Or.inl (by rw [← h2]; exact h1)
      · exact Or.inl (by rw [h1]; exact h2)
      · exact Or.inr ⟨h1.trans h2, h1'.trans h2'⟩
    have htot : ∀ a b : RankResult, (rankLE a b || rankLE b a) = true := by
      intro a b
      simp only [rankLE, Bool.or_eq_true, decide_eq_true_eq]
      rcases lt_trichotomy a.score b.score with h | h | h
      · exact Or.inr (Or.inl h)
      · rcases le_total a.metro_id b.metro_id with hid | hid
        · exact Or.inl (Or.inr ⟨h, hid⟩)
        · exact Or.inr (Or.inr ⟨h.symm, hid⟩)
      · exact Or.inl (Or.inl h)
    have hp := List.sorted_mergeSort htrans htot
      ((ms.filter fun m => req.population_min ≤ m.population).filterMap
        (scoreMetro req))
    have hsub : (rank req ms).Sublist
        ((((ms.filter fun m => req.population_min ≤ m.population).filterMap
          (scoreMetro req)).mergeSort rankLE)) := by
      unfold rank
      exact List.take_sublist _ _
    exact (List.Pairwise.sublist hsub hp).imp fun h => of_decide_eq_true h
  · unfold rank
    rw [List.length_take]
    exact min_le_left _ _

/-- C8: a zero or negative RPP index makes the RegionalAdjuster fail with
the invalid-metro-data error and the metro is dropped from the batch
without aborting it; a positive index yields
`adjusted_income = net / rpp`. -/
theorem regional_adjuster_contract :
    (∀ net rpp : ℚ, rpp ≤ 0 →
      regionalAdjust net rpp = .error .invalidMetroData) ∧
    (∀ net rpp : ℚ, 0 < rpp → regionalAdjust net rpp = .ok (net / rpp)) ∧
    (∀ (req : RankRequest) (m : MetroRecord), m.rpp_index ≤ 0 →
      scoreMetro req m = none) ∧
    (∀ (req : RankRequest) (m : MetroRecord) (ms : List MetroRecord),
      m.rpp_index ≤ 0 → rank req (m :: ms) = rank req ms) := by
  have h1 : ∀ net rpp : ℚ, rpp ≤ 0 →
      regionalAdjust net rpp = .error .invalidMetroData := by
    intro net rpp h
    unfold regionalAdjust
    rw [if_pos h]
  have h3 : ∀ (req : RankRequest) (m : MetroRecord), m.rpp_index ≤ 0 →
      scoreMetro req m = none := by
    intro req m h
    unfold scoreMetro
    rw [h1 _ _ h]
    simp
  refine ⟨h1, ?_, h3, ?_⟩
  · intro net rpp h
    unfold regionalAdjust
    rw [if_neg (not_le.mpr h)]
  · intro req m ms h
    unfold rank
    rw [List.filter_cons]
    by_cases hpop : req.population_min ≤ m.population
    · rw [if_pos (by simpa using hpop), List.filterMap_cons, h3 req m h]
    · rw [if_neg (by simpa using hpop)]

/-- A catalog row whose stored RPP index is zero — invalid metro data. -/
def sampleMetroBadRpp : MetroRecord :=
  { sampleMetro with metro_id := 4, rpp_index := 0 }

/-- Witness for C8: the zero-RPP metro fails adjustment, is dropped, and
the rest of the batch is ranked as if it were not there. -/
theorem regional_adjuster_contract_witness :
    regionalAdjust 1000 0 = .error .invalidMetroData ∧
    regionalAdjust 1000 2 = .ok (1000 / 2) ∧
    scoreMetro sampleReq sampleMetroBadRpp = none ∧
    rank sampleReq (sampleMetroBadRpp :: [sampleMetro]) =
      rank sampleReq [sampleMetro] :=
  ⟨regional_adjuster_contract.1 1000 0 le_rfl,
    regional_adjuster_contract.2.1 1000 2 (by norm_num),
    regional_adjuster_contract.2.2.1 sampleReq sampleMetroBadRpp le_rfl,
    regional_adjuster_contract.2.2.2 sampleReq sampleMetroBadRpp [sampleMetro]
      le_rfl⟩

/-! Frontend: FormCard validation (translated from
`frontend/src/components/FormCard.tsx`) -/

namespace FormCard

/-- The error record built by `FormCard.validateForm`: one optional
message per field key, mirroring the `newErrors` object. -/
structure FormErrors where
  salary : Option String
  family_size : Option String
deriving DecidableEq, Repr

/-- The `newErrors` object after the three checks of
`FormCard.validateForm`: salary below 10,000, salary above 1,000,000,
family size below 1. -/
def validateFormErrors (salary family_size : ℚ) : FormErrors :=
  let e0 : FormErrors := { salary := none, family_size := none }
  let e1 := if salary < 10000 then
      { e0 with salary := some ("Salary must be at least $10,000") } else e0
  let e2 := if salary > 1000000 then
      { e1 with salary := some ("Salary must be less than $1,000,000") } else e1
  if family_size < 1 then
      { e2 with family_size := some ("Family size must be at least 1") } else e2

/-- Mirror of `Object.keys(newErrors).length` for the two possible keys. -/
def errorKeyCount (e : FormErrors) : ℕ :=
  (if e.salary.isSome then 1 else 0) + (if e.family_size.isSome then 1 else 0)

/-- Mirror of `validateForm`: returns whether the error object is empty. -/
def validateForm (salary family_size : ℚ) : Bool :=
  decide (errorKeyCount (validateFormErrors salary family_size) = 0)

/-- Validation succeeds exactly when none of the three checks fires. -/
theorem validateForm_true_iff (s f : ℚ) :
    validateForm s f = true ↔ (¬ s < 10000 ∧ ¬ s > 1000000 ∧ ¬ f < 1) := by
  by_cases h1 : s < 10000 <;> by_cases h2 : s > 1000000 <;> by_cases h3 : f < 1 <;>
    simp [validateForm, validateFormErrors, errorKeyCount, h1, h2, h3]

end FormCard

/-- C9: `FormCard.validateForm` accepts exactly the form states with
salary in the closed interval `[10000, 1000000]` and family size at
least 1; in particular the boundary salary 1,000,000 passes (only
`salary > 1000000` is rejected). -/
theorem validateForm_characterization (salary familySize : ℚ) :
    (FormCard.validateForm salary familySize = true ↔
      (10000 ≤ salary ∧ salary ≤ 1000000 ∧ 1 ≤ familySize)) ∧
    FormCard.validateForm 1000000 1 = true := by
  constructor
  · rw [FormCard.validateForm_true_iff]
    simp [not_lt]
  · rw [FormCard.validateForm_true_iff]
    norm_num

/-- Witness for C9: a concrete in-range form state is accepted. -/
theorem validateForm_characterization_witness :
    FormCard.validateForm 90000 2 = true :=
  (validateForm_characterization 90000 2).1.mpr
    ⟨by norm_num, by norm_num, by norm_num⟩

/-! Frontend: compare selection (translated from the results page's
`ResultsContent` component) -/

namespace ResultsContent

/-- The slice of the frontend `Metro` the compare-selection handlers
consult: only `metro_id`. -/
structure CompareMetro where
  metro_id : ℕ
deriving DecidableEq, Repr

/-- Mirror of `handleToggleSelect`: remove the metro when already selected,
otherwise add it unless four metros are already selected. -/
def handleToggleSelect (metro : CompareMetro) (prev : List CompareMetro) :
    List CompareMetro :=
  if prev.any fun m => m.metro_id == metro.metro_id then
    prev.filter fun m => m.metro_id != metro.metro_id
  else if 4 ≤ prev.length then prev
  else prev ++ [metro]

/-- Mirror of `handleRemoveFromCompare`: drop the metro with the given id. -/
def handleRemoveFromCompare (metroId : ℕ) (prev : List CompareMetro) :
    List CompareMetro :=
  prev.filter fun m => m.metro_id != metroId

/-- Mirror of `handleClearCompare`: empty the selection. -/
def handleClearCompare (_prev : List CompareMetro) : List CompareMetro := []

/-- The three selection operations available on the results page. -/
inductive CompareAction where
  | toggle (metro : CompareMetro)
  | remove (metroId : ℕ)
  | clear
deriving DecidableEq, Repr

/-- One state transition of the compare selection. -/
def applyCompareAction (prev : List CompareMetro) : CompareAction → List CompareMetro
  | .toggle m => handleToggleSelect m prev
  | .remove i => handleRemoveFromCompare i prev
  | .clear => handleClearCompare prev

/-- Run a sequence of selection operations from the initial empty
selection. -/
def runCompareActions (acts : List CompareAction) : List CompareMetro :=
  acts.foldl applyCompareAction []

theorem applyCompareAction_length_le (prev : List CompareMetro)
    (a : CompareAction) (h : prev.length ≤ 4) :
    (applyCompareAction prev a).length ≤ 4 := by
  cases a with
  | toggle m =>
    show (handleToggleSelect m prev).length ≤ 4
    unfold handleToggleSelect
    by_cases hs : (prev.any fun m' => m'.metro_id == m.metro_id) = true
    · rw [if_pos hs]
      exact le_trans (List.length_filter_le _ _) h
    · rw [if_neg hs]
      by_cases h4 : 4 ≤ prev.length
      · rw [if_pos h4]
        exact h
      · rw [if_neg h4]
        rw [List.length_append, List.length_singleton]
        omega
  | remove i =>
    exact le_trans (List.length_filter_le _ _) h
  | clear =>
    simp [applyCompareAction, handleClearCompare]

theorem foldl_applyCompareAction_length (acts : List CompareAction) :
    ∀ init : List CompareMetro, init.length ≤ 4 →
      (acts.foldl applyCompareAction init).length ≤ 4 := by
  induction acts with
  | nil =>
    intro init h
    simpa using h
  | cons a rest ih =>
    intro init h
    rw [List.foldl_cons]
    exact ih _ (applyCompareAction_length_le init a h)

end ResultsContent

open ResultsContent in
/-- C10: the compare selection never exceeds four metros — toggling a
selected metro removes it, toggling a new metro with four already
selected leaves the selection unchanged, remove and clear only shrink
it, and no sequence of these operations starting from the empty
selection produces more than four selected metros. -/
theorem compare_selection_invariant :
    (∀ (metro : CompareMetro) (prev : List CompareMetro),
      (prev.any fun m => m.metro_id == metro.metro_id) = true →
      (handleToggleSelect metro prev).all
        (fun m => m.metro_id != metro.metro_id) = true) ∧
    (∀ (metro : CompareMetro) (prev : List CompareMetro),
      4 ≤ prev.length →
      (prev.any fun m => m.metro_id == metro.metro_id) = false →
      handleToggleSelect metro prev = prev) ∧
    (∀ (metroId : ℕ) (prev : List CompareMetro),
      (handleRemoveFromCompare metroId prev).length ≤ prev.length) ∧
    (∀ prev : List CompareMetro, (handleClearCompare prev).length = 0) ∧
    (∀ acts : List CompareAction, (runCompareActions acts).length ≤ 4) := by
  refine ⟨?_, ?_, ?_, ?_, ?_⟩
  · intro metro prev hs
    unfold handleToggleSelect
    rw [if_pos hs]
    rw [List.all_eq_true]
    intro x hx
    exact (List.mem_filter.mp hx).2
  · intro metro prev h4 hs
    unfold handleToggleSelect
    rw [if_neg (by simp [hs]), if_pos h4]
  · intro metroId prev
    exact List.length_filter_le _ _
  · intro prev
    rfl
  · intro acts
    exact foldl_applyCompareAction_length acts [] (by simp)

open ResultsContent in
/-- Witness for C10: toggling the only selected metro empties the
selection, toggling a fifth metro into a full selection is a no-op, and
a five-toggle run never exceeds four selections. -/
theorem compare_selection_invariant_witness :
    (handleToggleSelect ⟨1⟩ [⟨1⟩]).all
      (fun m => m.metro_id != (⟨1⟩ : CompareMetro).metro_id) = true ∧
    handleToggleSelect ⟨5⟩ [⟨1⟩, ⟨2⟩, ⟨3⟩, ⟨4⟩] = [⟨1⟩, ⟨2⟩, ⟨3⟩, ⟨4⟩] ∧
    (runCompareActions
      [.toggle ⟨1⟩, .toggle ⟨2⟩, .toggle ⟨3⟩, .toggle ⟨4⟩,
        .toggle ⟨5⟩]).length ≤ 4 :=
  ⟨compare_selection_invariant.1 ⟨1⟩ [⟨1⟩] (by decide),
    compare_selection_invariant.2.1 ⟨5⟩ [⟨1⟩, ⟨2⟩, ⟨3⟩, ⟨4⟩] (by decide)
      (by decide),
    compare_selection_invariant.2.2.2.2
      [.toggle ⟨1⟩, .toggle ⟨2⟩, .toggle ⟨3⟩, .toggle ⟨4⟩, .toggle ⟨5⟩]⟩

end LiveBetter
